import Mathlib

/-
Verification of the network-monitor backend (src/backend/network_monitor.py,
src/backend/main.py) against its design specification.

The Python code is shallowly embedded: wall-clock times and rates (Python
floats) become rationals, cumulative byte counters become integers, Python
dicts become insertion-ordered association lists, and every effectful input
(psutil counters, the nettop subprocess, connection enumeration, process-name
lookup, time.time()) becomes an explicit parameter of the tick function.
Failures that the source absorbs with try/except are passed in as Option
values: none models the raised exception at the boundary where the source
catches it.
-/

namespace NetworkMonitor

/-- Association-list lookup, modelling Python dict membership and
`d[k]` / `d.get(k)`: the value at the first matching key. -/
def dGet {α β : Type} [DecidableEq α] (m : List (α × β)) (k : α) : Option β :=
  match m with
  | [] => none
  | (a, b) :: rest => if a = k then some b else dGet rest k

/-- Association-list assignment, modelling Python `d[k] = v`: replaces the
value at an existing key in place, otherwise appends at the end
(Python dicts preserve insertion order). -/
def dSet {α β : Type} [DecidableEq α] (m : List (α × β)) (k : α) (v : β) :
    List (α × β) :=
  match m with
  | [] => [(k, v)]
  | (a, b) :: rest => if a = k then (k, v) :: rest else (a, b) :: dSet rest k v

/-- Mirrors psutil.net_io_counters(): cumulative bytes sent/received. -/
structure IOCounters where
  bytes_sent : Int
  bytes_recv : Int
deriving Repr, DecidableEq

/-- Mirrors the BandwidthPoint dataclass of network_monitor.py. -/
structure BandwidthPoint where
  timestamp : ℚ
  upload : ℚ
  download : ℚ
deriving Repr, DecidableEq

/-- One entry of NetworkMonitor.process_bandwidth: a per-process rate pair,
`\x7b'upload': ..., 'download': ...\x7d` in the source. -/
structure ProcBW where
  upload : ℚ
  download : ℚ
deriving Repr, DecidableEq

/-- One entry of NetworkMonitor.previous_process_counters: cumulative
per-process byte counts parsed from one nettop run,
`\x7b'bytes_in': ..., 'bytes_out': ...\x7d` in the source. -/
structure ProcCounters where
  bytes_in : ℚ
  bytes_out : ℚ
deriving Repr, DecidableEq

/-- An ip:port endpoint as psutil reports it (conn.laddr / conn.raddr). -/
structure Addr where
  ip : String
  port : Nat
deriving Repr, DecidableEq

/-- One element of psutil.net_connections(kind='inet'): the fields the
monitor reads. pid is None for sockets whose owner is unknown. -/
structure ConnInfo where
  laddr : Option Addr
  raddr : Option Addr
  type_name : String
  status : String
  pid : Option Nat
deriving Repr, DecidableEq

/-- The per-connection dict built inside NetworkMonitor.update (lines
234-265 of network_monitor.py), including the internal start_time key. -/
structure ConnRecord where
  id : String
  local_addr : String
  remote_addr : String
  protocol : String
  state : String
  process_name : String
  pid : Nat
  upload_speed : ℚ
  download_speed : ℚ
  duration : ℚ
  bytes_sent : Nat
  bytes_received : Nat
  start_time : ℚ
deriving Repr, DecidableEq

/-- The mutable attributes of the NetworkMonitor class. -/
structure MonitorState where
  history_length : Nat
  bandwidth_history : List BandwidthPoint
  connections : List (String × ConnRecord)
  previous_io_counters : Option IOCounters
  previous_time : Option ℚ
  start_time : ℚ
  total_bytes_sent : Int
  total_bytes_received : Int
  process_bandwidth : List (Nat × ProcBW)
  previous_process_counters : List (Nat × ProcCounters)
  previous_nettop_time : Option ℚ
deriving Repr, DecidableEq

/-- The stats dict returned by update() and get_stats(). -/
structure Stats where
  total_upload_speed : ℚ
  total_download_speed : ℚ
  active_connections : Nat
  total_bytes_sent : Int
  total_bytes_received : Int
  uptime : ℚ
deriving Repr, DecidableEq

/-- The dict returned by update(): connection list plus stats. -/
structure Snapshot where
  connections : List ConnRecord
  stats : Stats
deriving Repr, DecidableEq

/-- Appending to a collections.deque with maxlen: the new element goes at
the right and elements are discarded from the left until the length is at
most maxlen. -/
def dequeAppend (maxlen : Nat) (xs : List BandwidthPoint) (x : BandwidthPoint) :
    List BandwidthPoint :=
  let ys := xs ++ [x]
  ys.drop (ys.length - maxlen)

/-- NetworkMonitor._update_io_counters, with the psutil counter reading and
the time.time() reading passed in as arguments `c` and `t`. -/
def update_io_counters (s : MonitorState) (c : IOCounters) (t : ℚ) :
    MonitorState :=
  let s1 :=
    match s.previous_io_counters, s.previous_time with
    | some prev, some pt =>
      let time_delta := t - pt
      if 0 < time_delta then
        let bytes_sent_delta : ℚ := (c.bytes_sent : ℚ) - (prev.bytes_sent : ℚ)
        let bytes_recv_delta : ℚ := (c.bytes_recv : ℚ) - (prev.bytes_recv : ℚ)
        let point : BandwidthPoint :=
          { timestamp := t
            upload := bytes_sent_delta / time_delta
            download := bytes_recv_delta / time_delta }
        { s with bandwidth_history :=
            dequeAppend s.history_length s.bandwidth_history point }
      else s
    | _, _ => s
  { s1 with
    previous_io_counters := some c
    previous_time := some t
    total_bytes_sent := c.bytes_sent
    total_bytes_received := c.bytes_recv }

/-- NetworkMonitor.__init__: all attributes start empty/None, then
_update_io_counters runs once. `t_start` is the time.time() stored as
start_time; `t_io` the time.time() read inside _update_io_counters;
`c` the counters psutil returns during construction. -/
def init (history_length : Nat) (c : IOCounters) (t_start t_io : ℚ) :
    MonitorState :=
  update_io_counters
    { history_length := history_length
      bandwidth_history := []
      connections := []
      previous_io_counters := none
      previous_time := none
      start_time := t_start
      total_bytes_sent := 0
      total_bytes_received := 0
      process_bandwidth := []
      previous_process_counters := []
      previous_nettop_time := none } c t_io

/-- NetworkMonitor._update_process_bandwidth from line 161 on. The nettop
invocation, exit-code check and text parsing (lines 119-159) are the
external-sampler boundary: `result` is `some counters` when the subprocess
succeeded and its stdout parsed to the dict current_counters, and `none`
when the subprocess failed, timed out, was missing, or exited nonzero - in
every such case the source returns with no attribute modified.
`t` is the time.time() read at the top of the method. -/
def update_process_bandwidth (s : MonitorState)
    (result : Option (List (Nat × ProcCounters))) (t : ℚ) : MonitorState :=
  match result with
  | none => s
  | some current_counters =>
    let s1 :=
      match s.previous_nettop_time with
      | some prev_t =>
        if s.previous_process_counters ≠ [] then
          let time_delta := t - prev_t
          if 0 < time_delta then
            let pbw := current_counters.filterMap
              (fun (pc : Nat × ProcCounters) =>
                match dGet s.previous_process_counters pc.1 with
                | some previous =>
                  let bytes_in_delta := max 0 (pc.2.bytes_in - previous.bytes_in)
                  let bytes_out_delta := max 0 (pc.2.bytes_out - previous.bytes_out)
                  some (pc.1,
                    { upload := bytes_out_delta / time_delta
                      download := bytes_in_delta / time_delta : ProcBW })
                | none => none)
            { s with process_bandwidth := pbw }
          else s
        else s
      | none => s
    { s1 with
      previous_process_counters := current_counters
      previous_nettop_time := some t }

/-- NetworkMonitor._get_connection_id. A missing endpoint renders as
"unknown" and the pid renders as Python str(), so a None pid embeds the
text "None" into the identity. -/
def get_connection_id (c : ConnInfo) : String :=
  let l := match c.laddr with
    | some a => a.ip ++ ":" ++ toString a.port
    | none => "unknown"
  let r := match c.raddr with
    | some a => a.ip ++ ":" ++ toString a.port
    | none => "unknown"
  let p := match c.pid with
    | some n => toString n
    | none => "None"
  c.type_name ++ "_" ++ l ++ "_" ++ r ++ "_" ++ p

/-- NetworkMonitor._get_process_name, with the psutil.Process(...).name()
lookup passed in as `proc_name`; `none` models NoSuchProcess/AccessDenied. -/
def get_process_name (proc_name : Nat → Option String) (pid : Option Nat) :
    String :=
  match pid with
  | none => "Unknown"
  | some p =>
    match proc_name p with
    | some n => n
    | none => "Unknown"

/-- NetworkMonitor._format_addr. -/
def format_addr (a : Option Addr) : String :=
  match a with
  | some ad => ad.ip ++ ":" ++ toString ad.port
  | none => "N/A"

/-- The effectful inputs consumed by one call to NetworkMonitor.update:
the psutil counter sample and its timestamp, the nettop outcome and its
timestamp, the connection enumeration (`none` models
psutil.AccessDenied/PermissionError), the process-name oracle, and the
time.time() value used for connection start/duration bookkeeping and
uptime. -/
structure TickInput where
  io_counters : IOCounters
  io_time : ℚ
  nettop_result : Option (List (Nat × ProcCounters))
  nettop_time : ℚ
  conn_result : Option (List ConnInfo)
  proc_name : Nat → Option String
  now : ℚ

/-- The dict built for one enumerated connection inside the loop of
NetworkMonitor.update (lines 216-265): `old` is self.connections as it
stood when update() was entered, `pbw` is self.process_bandwidth after the
nettop step. Python `conn.pid if conn.pid else 0` maps both None and 0
to 0. -/
def mkRecord (old : List (String × ConnRecord)) (pbw : List (Nat × ProcBW))
    (proc_name : Nat → Option String) (now : ℚ) (c : ConnInfo) : ConnRecord :=
  let conn_id := get_connection_id c
  let pname := get_process_name proc_name c.pid
  let pid := c.pid.getD 0
  let proc_bw := (dGet pbw pid).getD { upload := 0, download := 0 }
  match dGet old conn_id with
  | some existing =>
    { id := conn_id
      local_addr := format_addr c.laddr
      remote_addr := format_addr c.raddr
      protocol := c.type_name
      state := c.status
      process_name := pname
      pid := pid
      upload_speed := proc_bw.upload
      download_speed := proc_bw.download
      duration := now - existing.start_time
      bytes_sent := 0
      bytes_received := 0
      start_time := existing.start_time }
  | none =>
    { id := conn_id
      local_addr := format_addr c.laddr
      remote_addr := format_addr c.raddr
      protocol := c.type_name
      state := c.status
      process_name := pname
      pid := pid
      upload_speed := proc_bw.upload
      download_speed := proc_bw.download
      duration := 0
      bytes_sent := 0
      bytes_received := 0
      start_time := now }

/-- The for-loop of NetworkMonitor.update building current_connections:
connections without a remote address are skipped, every other connection
is assigned into the accumulator dict under its identity. -/
def buildConns (old : List (String × ConnRecord)) (pbw : List (Nat × ProcBW))
    (proc_name : Nat → Option String) (now : ℚ) :
    List ConnInfo → List (String × ConnRecord) → List (String × ConnRecord)
  | [], acc => acc
  | c :: rest, acc =>
    if c.raddr.isNone then
      buildConns old pbw proc_name now rest acc
    else
      buildConns old pbw proc_name now rest
        (dSet acc (get_connection_id c) (mkRecord old pbw proc_name now c))

/-- Sum of the 'upload' values of a rate table, as in
`sum(bw['upload'] for bw in self.process_bandwidth.values())`. -/
def sumUpload (m : List (Nat × ProcBW)) : ℚ :=
  (m.map (fun p => p.2.upload)).sum

/-- Sum of the 'download' values of a rate table. -/
def sumDownload (m : List (Nat × ProcBW)) : ℚ :=
  (m.map (fun p => p.2.download)).sum

/-- NetworkMonitor.update: refresh the io counters, refresh the per-process
bandwidth, rebuild the connection table from this tick's enumeration
(treating a permission failure as an empty listing), replace
self.connections wholesale, and return the snapshot dict. -/
def update (s : MonitorState) (inp : TickInput) : MonitorState × Snapshot :=
  let s1 := update_io_counters s inp.io_counters inp.io_time
  let s2 := update_process_bandwidth s1 inp.nettop_result inp.nettop_time
  let connections_list := inp.conn_result.getD []
  let current_connections :=
    buildConns s2.connections s2.process_bandwidth inp.proc_name inp.now
      connections_list []
  let s3 := { s2 with connections := current_connections }
  let current_upload := sumUpload s2.process_bandwidth
  let current_download := sumDownload s2.process_bandwidth
  (s3,
   { connections := s3.connections.map Prod.snd
     stats :=
      { total_upload_speed := current_upload
        total_download_speed := current_download
        active_connections := s3.connections.length
        total_bytes_sent := s3.total_bytes_sent
        total_bytes_received := s3.total_bytes_received
        uptime := inp.now - s3.start_time } })

/-- NetworkMonitor.get_connections: list(self.connections.values()). -/
def get_connections (s : MonitorState) : List ConnRecord :=
  s.connections.map Prod.snd

/-- NetworkMonitor.get_stats, with the time.time() read passed as `now`. -/
def get_stats (s : MonitorState) (now : ℚ) : Stats :=
  { total_upload_speed := sumUpload s.process_bandwidth
    total_download_speed := sumDownload s.process_bandwidth
    active_connections := s.connections.length
    total_bytes_sent := s.total_bytes_sent
    total_bytes_received := s.total_bytes_received
    uptime := now - s.start_time }

/-- NetworkMonitor.get_bandwidth_history: the stored deque, left to right
(oldest first); to_dict is the identity in this model. -/
def get_bandwidth_history (s : MonitorState) : List BandwidthPoint :=
  s.bandwidth_history

/-- Iterated ticks: foldl of update over a list of tick inputs. -/
def runTicks (s : MonitorState) (l : List TickInput) : MonitorState :=
  l.foldl (fun st i => (update st i).1) s

end NetworkMonitor

namespace Broadcast

/-- One pass of the broadcast section of monitor_network in main.py
(lines 34-49), instrumented to also return the list of clients a send was
attempted for. Clients are identified by numbers; `send_ok c = false`
models `await connection.send_text(...)` raising. When the subscriber set
is empty the body is skipped entirely; otherwise every member is attempted
and the failed ones are removed from the live set
(active_connections.difference_update(disconnected)). -/
def publish (subs : List Nat) (send_ok : Nat → Bool) : List Nat × List Nat :=
  if subs = [] then (subs, subs)
  else
    let disconnected := subs.filter (fun c => ¬ send_ok c)
    (subs, subs.filter (fun c => ¬ c ∈ disconnected))

/-- The health endpoint's active_connections field: len(active_connections). -/
def healthSubscriberCount (subs : List Nat) : Nat :=
  subs.length

end Broadcast

namespace NetworkMonitor

/-- A convenient tick input: counters `c` at time `t`, nettop failed,
enumeration succeeded with an empty listing. -/
def simpleTick (c : IOCounters) (t : ℚ) : TickInput :=
  { io_counters := c
    io_time := t
    nettop_result := none
    nettop_time := t
    conn_result := some []
    proc_name := fun _ => none
    now := t }

theorem upb_bandwidth_history (s : MonitorState)
    (r : Option (List (Nat × ProcCounters))) (t : ℚ) :
    (update_process_bandwidth s r t).bandwidth_history = s.bandwidth_history := by
  unfold update_process_bandwidth
  rcases r with _ | cc
  · rfl
  · dsimp only
    split <;> first | rfl | (split <;> first | rfl | (split <;> rfl))

theorem upb_connections (s : MonitorState)
    (r : Option (List (Nat × ProcCounters))) (t : ℚ) :
    (update_process_bandwidth s r t).connections = s.connections := by
  unfold update_process_bandwidth
  rcases r with _ | cc
  · rfl
  · dsimp only
    split <;> first | rfl | (split <;> first | rfl | (split <;> rfl))

theorem upb_history_length (s : MonitorState)
    (r : Option (List (Nat × ProcCounters))) (t : ℚ) :
    (update_process_bandwidth s r t).history_length = s.history_length := by
  unfold update_process_bandwidth
  rcases r with _ | cc
  · rfl
  · dsimp only
    split <;> first | rfl | (split <;> first | rfl | (split <;> rfl))

theorem upb_total_bytes (s : MonitorState)
    (r : Option (List (Nat × ProcCounters))) (t : ℚ) :
    (update_process_bandwidth s r t).total_bytes_sent = s.total_bytes_sent ∧
    (update_process_bandwidth s r t).total_bytes_received = s.total_bytes_received := by
  unfold update_process_bandwidth
  rcases r with _ | cc
  · exact ⟨rfl, rfl⟩
  · dsimp only
    constructor <;>
      (split <;> first | rfl | (split <;> first | rfl | (split <;> rfl)))

theorem upb_start_time (s : MonitorState)
    (r : Option (List (Nat × ProcCounters))) (t : ℚ) :
    (update_process_bandwidth s r t).start_time = s.start_time := by
  unfold update_process_bandwidth
  rcases r with _ | cc
  · rfl
  · dsimp only
    split <;> first | rfl | (split <;> first | rfl | (split <;> rfl))

theorem uio_connections (s : MonitorState) (c : IOCounters) (t : ℚ) :
    (update_io_counters s c t).connections = s.connections := by
  unfold update_io_counters
  dsimp only
  split <;> first | rfl | (split <;> rfl)

theorem uio_process_bandwidth (s : MonitorState) (c : IOCounters) (t : ℚ) :
    (update_io_counters s c t).process_bandwidth = s.process_bandwidth := by
  unfold update_io_counters
  dsimp only
  split <;> first | rfl | (split <;> rfl)

theorem uio_history_length (s : MonitorState) (c : IOCounters) (t : ℚ) :
    (update_io_counters s c t).history_length = s.history_length := by
  unfold update_io_counters
  dsimp only
  split <;> first | rfl | (split <;> rfl)

theorem uio_start_time (s : MonitorState) (c : IOCounters) (t : ℚ) :
    (update_io_counters s c t).start_time = s.start_time := by
  unfold update_io_counters
  dsimp only
  split <;> first | rfl | (split <;> rfl)

theorem uio_prev_process (s : MonitorState) (c : IOCounters) (t : ℚ) :
    (update_io_counters s c t).previous_process_counters =
        s.previous_process_counters ∧
    (update_io_counters s c t).previous_nettop_time = s.previous_nettop_time := by
  unfold update_io_counters
  dsimp only
  constructor <;> (split <;> first | rfl | (split <;> rfl))

theorem uio_total_bytes (s : MonitorState) (c : IOCounters) (t : ℚ) :
    (update_io_counters s c t).total_bytes_sent = c.bytes_sent ∧
    (update_io_counters s c t).total_bytes_received = c.bytes_recv :=
  ⟨rfl, rfl⟩

/-- The bandwidth history produced by one tick is the history produced by
the io-counter step: the later steps of update() never touch it. -/
theorem update_bandwidth_history (s : MonitorState) (inp : TickInput) :
    ((update s inp).1).bandwidth_history =
      (update_io_counters s inp.io_counters inp.io_time).bandwidth_history := by
  unfold update
  dsimp only
  exact upb_bandwidth_history _ _ _

/-- Claim C1 counterexample: starting from a baseline of (sent=1000,
recv=2000) at time 0, a tick at time 1 whose sent counter has regressed to
500 appends a BandwidthPoint with upload = -500 bytes/sec: the aggregate
rate computation of _update_io_counters performs no clamping, so a counter
regression yields a negative rate, contradicting the claim that rates are
never negative. -/
theorem C1_counterexample :
    ((update (init 60 ⟨1000, 2000⟩ 0 0) (simpleTick ⟨500, 2500⟩ 1)).1).bandwidth_history
        = [{ timestamp := 1, upload := -500, download := 500 }] ∧
    (-500 : ℚ) < 0 := by
  constructor
  · norm_num [update, init, update_io_counters, update_process_bandwidth,
      buildConns, dequeAppend, simpleTick]
  · norm_num

/-- Claim C1 (amended): for every tick with a previous aggregate sample and
positive elapsed time, the appended BandwidthPoint has
upload = (current sent - previous sent) / elapsed and
download = (current recv - previous recv) / elapsed, with no clamping: the
rate carries the sign of the counter delta, so a regressing counter
produces a negative rate (only the per-process path clamps at zero). -/
theorem C1_rate_formula (s : MonitorState) (inp : TickInput)
    (pc : IOCounters) (pt : ℚ)
    (hpc : s.previous_io_counters = some pc) (hpt : s.previous_time = some pt)
    (h : 0 < inp.io_time - pt) :
    ((update s inp).1).bandwidth_history =
      dequeAppend s.history_length s.bandwidth_history
        { timestamp := inp.io_time
          upload := ((inp.io_counters.bytes_sent : ℚ) - (pc.bytes_sent : ℚ)) /
            (inp.io_time - pt)
          download := ((inp.io_counters.bytes_recv : ℚ) - (pc.bytes_recv : ℚ)) /
            (inp.io_time - pt) } := by
  rw [update_bandwidth_history]
  unfold update_io_counters
  rw [hpc, hpt]
  dsimp only
  rw [if_pos h]

/-- Witness for C1_rate_formula at the concrete regression scenario of
C1_counterexample. -/
theorem C1_rate_formula_witness :
    ((update (init 60 ⟨1000, 2000⟩ 0 0) (simpleTick ⟨500, 2500⟩ 1)).1).bandwidth_history
      = dequeAppend 60 []
        { timestamp := 1
          upload := (((500 : Int) : ℚ) - ((1000 : Int) : ℚ)) / (1 - 0)
          download := (((2500 : Int) : ℚ) - ((2000 : Int) : ℚ)) / (1 - 0) } :=
  C1_rate_formula (init 60 ⟨1000, 2000⟩ 0 0) (simpleTick ⟨500, 2500⟩ 1)
    ⟨1000, 2000⟩ 0 rfl rfl (by norm_num [simpleTick])

/-- Claim C2 counterexample: the claim asserts the first call to update()
after construction leaves the history empty, but NetworkMonitor.__init__
itself calls _update_io_counters and installs a baseline, so the first
update() already produces a point: with counters (1000,2000) consumed at
construction (time 0) and the first update() one second later reading
(1500,2500), the history after that first update() is the singleton
(upload=500, download=500), not empty. -/
theorem C2_counterexample :
    ((update (init 60 ⟨1000, 2000⟩ 0 0) (simpleTick ⟨1500, 2500⟩ 1)).1).bandwidth_history
        = [{ timestamp := 1, upload := 500, download := 500 }] ∧
    ((update (init 60 ⟨1000, 2000⟩ 0 0) (simpleTick ⟨1500, 2500⟩ 1)).1).bandwidth_history
        ≠ [] := by
  constructor
  · norm_num [update, init, update_io_counters, update_process_bandwidth,
      buildConns, dequeAppend, simpleTick]
  · norm_num [update, init, update_io_counters, update_process_bandwidth,
      buildConns, dequeAppend, simpleTick]

theorem dSet_mem_snd {α β : Type} [DecidableEq α] (k : α) (v : β) (r : β) :
    ∀ m : List (α × β), r ∈ (dSet m k v).map Prod.snd →
      r ∈ m.map Prod.snd ∨ r = v := by
  intro m
  induction m with
  | nil =>
    intro h
    simp [dSet] at h
    exact Or.inr h
  | cons p rest ih =>
    obtain ⟨a, b⟩ := p
    intro h
    rw [dSet] at h
    split at h
    · simp only [List.map_cons, List.mem_cons] at h ⊢
      tauto
    · simp only [List.map_cons, List.mem_cons] at h ⊢
      rcases h with h | h
      · tauto
      · rcases ih h with h2 | h2 <;> tauto

theorem mkRecord_id (old : List (String × ConnRecord))
    (pbw : List (Nat × ProcBW)) (pn : Nat → Option String) (now : ℚ)
    (c : ConnInfo) : (mkRecord old pbw pn now c).id = get_connection_id c := by
  unfold mkRecord
  dsimp only
  split <;> rfl

/-- Every value of the table the tick loop builds comes from an enumerated
connection that had a remote address. -/
theorem buildConns_mem_snd (old : List (String × ConnRecord))
    (pbw : List (Nat × ProcBW)) (pn : Nat → Option String) (now : ℚ)
    (r : ConnRecord) :
    ∀ (l : List ConnInfo) (acc : List (String × ConnRecord)),
      r ∈ (buildConns old pbw pn now l acc).map Prod.snd →
      r ∈ acc.map Prod.snd ∨
        ∃ c ∈ l, c.raddr.isSome ∧ r = mkRecord old pbw pn now c := by
  intro l
  induction l with
  | nil =>
    intro acc h
    rw [buildConns] at h
    exact Or.inl h
  | cons c rest ih =>
    intro acc h
    rw [buildConns] at h
    by_cases hnone : c.raddr.isNone = true
    · rw [if_pos hnone] at h
      rcases ih _ h with h2 | ⟨c2, hc2, hs2, hr2⟩
      · exact Or.inl h2
      · exact Or.inr ⟨c2, List.mem_cons_of_mem _ hc2, hs2, hr2⟩
    · rw [if_neg hnone] at h
      rcases ih _ h with h2 | ⟨c2, hc2, hs2, hr2⟩
      · rcases dSet_mem_snd _ _ _ _ h2 with h3 | h3
        · exact Or.inl h3
        · refine Or.inr ⟨c, List.mem_cons_self _ _, ?_, h3⟩
          rcases hr : c.raddr with _ | a
          · exact absurd (by rw [hr]; rfl) hnone
          · rfl
      · exact Or.inr ⟨c2, List.mem_cons_of_mem _ hc2, hs2, hr2⟩

/-- The connection table after one tick is exactly the table built by the
loop over this tick's enumeration, starting from the empty dict, keyed
against the pre-tick table. -/
theorem update_connections_eq (s : MonitorState) (inp : TickInput) :
    ((update s inp).1).connections =
      buildConns s.connections
        (update_process_bandwidth
          (update_io_counters s inp.io_counters inp.io_time)
          inp.nettop_result inp.nettop_time).process_bandwidth
        inp.proc_name inp.now (inp.conn_result.getD []) [] := by
  unfold update
  dsimp only
  rw [upb_connections, uio_connections]

/-- Claim C3: after every tick the connection table holds only identities
enumerated in that tick (listening sockets excluded): every record that
get_connections returns after a tick originates from a connection of that
tick's enumeration with a remote address whose identity equals the
record's id; hence an identity absent from the latest enumeration is
absent from get_connections - removal is immediate, with no stale marking
and no grace period. -/
theorem C3_no_lingering (s : MonitorState) (inp : TickInput) (r : ConnRecord)
    (hr : r ∈ get_connections ((update s inp).1)) :
    ∃ c ∈ inp.conn_result.getD [], c.raddr.isSome ∧
      get_connection_id c = r.id := by
  unfold get_connections at hr
  rw [update_connections_eq] at hr
  rcases buildConns_mem_snd _ _ _ _ _ _ _ hr with h | ⟨c, hc, hs, hrec⟩
  · simp at h
  · exact ⟨c, hc, hs, by rw [hrec, mkRecord_id]⟩

/-- A concrete TCP connection owned by pid 500. -/
def connA : ConnInfo :=
  { laddr := some ⟨"10.0.0.2", 55000⟩
    raddr := some ⟨"93.184.216.34", 443⟩
    type_name := "SOCK_STREAM"
    status := "ESTABLISHED"
    pid := some 500 }

/-- A tick whose enumeration contains exactly connA. -/
def tickConnA : TickInput :=
  { io_counters := ⟨1500, 2500⟩
    io_time := 1
    nettop_result := none
    nettop_time := 1
    conn_result := some [connA]
    proc_name := fun _ => some "curl"
    now := 1 }

/-- Witness for C3_no_lingering: the record the tick emits for connA
indeed traces back to connA. -/
theorem C3_witness :
    ∃ c ∈ tickConnA.conn_result.getD [], c.raddr.isSome ∧
      get_connection_id c =
        (mkRecord [] [] tickConnA.proc_name 1 connA).id :=
  C3_no_lingering (init 60 ⟨1000, 2000⟩ 0 0) tickConnA
    (mkRecord [] [] tickConnA.proc_name 1 connA)
    (by norm_num [get_connections, update_connections_eq, update_io_counters,
      update_process_bandwidth, buildConns, dSet, init, tickConnA, connA])

/-- The BandwidthPoint a tick would append: present exactly when a previous
aggregate sample exists and the elapsed time is positive. -/
def tickPoint (s : MonitorState) (inp : TickInput) : Option BandwidthPoint :=
  match s.previous_io_counters, s.previous_time with
  | some pc, some pt =>
    if 0 < inp.io_time - pt then
      some { timestamp := inp.io_time
             upload := ((inp.io_counters.bytes_sent : ℚ) - (pc.bytes_sent : ℚ)) /
               (inp.io_time - pt)
             download := ((inp.io_counters.bytes_recv : ℚ) - (pc.bytes_recv : ℚ)) /
               (inp.io_time - pt) }
    else none
  | _, _ => none

/-- One tick either appends exactly its tickPoint through the bounded
deque or leaves the history untouched. -/
theorem update_history_eq (s : MonitorState) (inp : TickInput) :
    ((update s inp).1).bandwidth_history =
      match tickPoint s inp with
      | some p => dequeAppend s.history_length s.bandwidth_history p
      | none => s.bandwidth_history := by
  rw [update_bandwidth_history]
  unfold update_io_counters tickPoint
  rcases hp : s.previous_io_counters with _ | pc <;>
    rcases ht : s.previous_time with _ | pt <;> simp only [hp, ht]
  all_goals
    by_cases hd : 0 < inp.io_time - pt
    · rw [if_pos hd, if_pos hd]
    · rw [if_neg hd, if_neg hd]

theorem dequeAppend_length_le (n : Nat) (xs : List BandwidthPoint)
    (x : BandwidthPoint) : (dequeAppend n xs x).length ≤ n := by
  unfold dequeAppend
  simp only [List.length_drop, List.length_append, List.length_singleton]
  omega

theorem dequeAppend_full (n : Nat) (xs : List BandwidthPoint)
    (x : BandwidthPoint) (hf : xs.length = n) (hn : 0 < n) :
    dequeAppend n xs x = xs.tail ++ [x] := by
  show List.drop ((xs ++ [x]).length - n) (xs ++ [x]) = xs.tail ++ [x]
  have h1 : (xs ++ [x]).length - n = 1 := by
    simp only [List.length_append, List.length_singleton]
    omega
  rw [h1]
  rcases xs with _ | ⟨a, rest⟩
  · simp at hf
    omega
  · rfl

theorem update_history_length (s : MonitorState) (inp : TickInput) :
    ((update s inp).1).history_length = s.history_length := by
  unfold update
  dsimp only
  rw [upb_history_length, uio_history_length]

theorem runTicks_history_bound (l : List TickInput) :
    ∀ s : MonitorState, s.bandwidth_history.length ≤ s.history_length →
      (runTicks s l).bandwidth_history.length ≤ s.history_length := by
  induction l with
  | nil => intro s h; exact h
  | cons i rest ih =>
    intro s h
    have hstep : ((update s i).1).bandwidth_history.length ≤
        ((update s i).1).history_length := by
      rw [update_history_length, update_history_eq]
      rcases htp : tickPoint s i with _ | p
      · simpa [htp] using h
      · simp only [htp]
        exact dequeAppend_length_le s.history_length s.bandwidth_history p
    have hrest := ih ((update s i).1) hstep
    rw [update_history_length] at hrest
    simpa [runTicks] using hrest

/-- Claim C4: the history buffer never exceeds the configured capacity
under any run of ticks; when the buffer is full and a tick appends a
point, the oldest (leftmost) point is evicted and the new point goes at
the right (FIFO); and get_bandwidth_history returns exactly the retained
buffer in stored order, oldest first. -/
theorem C4_history_bounded (s : MonitorState) (l : List TickInput)
    (inp : TickInput) (h : s.bandwidth_history.length ≤ s.history_length) :
    (runTicks s l).bandwidth_history.length ≤ s.history_length ∧
    get_bandwidth_history (runTicks s l) = (runTicks s l).bandwidth_history ∧
    (∀ p, tickPoint s inp = some p →
      s.bandwidth_history.length = s.history_length → 0 < s.history_length →
      ((update s inp).1).bandwidth_history =
        s.bandwidth_history.tail ++ [p]) := by
  refine ⟨runTicks_history_bound l s h, rfl, ?_⟩
  intro p htp hfull hpos
  rw [update_history_eq, htp]
  exact dequeAppend_full _ _ _ hfull hpos

/-- A monitor state whose two-slot history buffer is full. -/
def s4full : MonitorState :=
  { history_length := 2
    bandwidth_history := [⟨0, 1, 1⟩, ⟨1, 2, 2⟩]
    connections := []
    previous_io_counters := some ⟨1000, 2000⟩
    previous_time := some 1
    start_time := 0
    total_bytes_sent := 1000
    total_bytes_received := 2000
    process_bandwidth := []
    previous_process_counters := []
    previous_nettop_time := none }

/-- Witness for C4_history_bounded at a full two-slot buffer and one
history-eligible tick. -/
theorem C4_witness :
    (runTicks s4full [simpleTick ⟨1500, 2500⟩ 2]).bandwidth_history.length ≤
        s4full.history_length ∧
    get_bandwidth_history (runTicks s4full [simpleTick ⟨1500, 2500⟩ 2]) =
      (runTicks s4full [simpleTick ⟨1500, 2500⟩ 2]).bandwidth_history ∧
    (∀ p, tickPoint s4full (simpleTick ⟨1500, 2500⟩ 2) = some p →
      s4full.bandwidth_history.length = s4full.history_length →
      0 < s4full.history_length →
      ((update s4full (simpleTick ⟨1500, 2500⟩ 2)).1).bandwidth_history =
        s4full.bandwidth_history.tail ++ [p]) :=
  C4_history_bounded s4full [simpleTick ⟨1500, 2500⟩ 2]
    (simpleTick ⟨1500, 2500⟩ 2) (by norm_num [s4full])

/-- Claim C2 (amended): the baseline sample is taken during construction
(__init__ runs _update_io_counters once), and that construction-time
sample produces no history point; with counters (1000,2000) read at
construction and the first update() one second later reading (1500,2500),
that first update() produces exactly one point with upload=500 and
download=500. -/
theorem C2_amended :
    (init 60 ⟨1000, 2000⟩ 0 0).bandwidth_history = [] ∧
    ((update (init 60 ⟨1000, 2000⟩ 0 0) (simpleTick ⟨1500, 2500⟩ 1)).1).bandwidth_history
        = [{ timestamp := 1, upload := 500, download := 500 }] := by
  constructor
  · rfl
  · norm_num [update, init, update_io_counters, update_process_bandwidth,
      buildConns, dequeAppend, simpleTick]

end NetworkMonitor

namespace NetworkMonitor

/-- The snapshot's connection list is the values of the post-tick table. -/
theorem update_snapshot_connections (s : MonitorState) (inp : TickInput) :
    ((update s inp).2).connections =
      ((update s inp).1).connections.map Prod.snd := rfl

/-- The snapshot's active_connections is the size of the post-tick table. -/
theorem update_snapshot_count (s : MonitorState) (inp : TickInput) :
    ((update s inp).2).stats.active_connections =
      ((update s inp).1).connections.length := rfl

/-- Claim C5: when connection enumeration raises a permission error
(conn_result = none), the tick treats the enumeration as empty:
get_connections returns the empty list afterwards, the snapshot carries an
empty connection list and a zero connection count, and the tick still
returns a value (in this embedding update is a total function; the
try/except of the source absorbs the error before it can propagate). -/
theorem C5_permission_error (s : MonitorState) (inp : TickInput)
    (h : inp.conn_result = none) :
    get_connections ((update s inp).1) = [] ∧
    ((update s inp).2).connections = [] ∧
    ((update s inp).2).stats.active_connections = 0 := by
  have hc : ((update s inp).1).connections = [] := by
    rw [update_connections_eq, h]
    rfl
  refine ⟨?_, ?_, ?_⟩
  · show ((update s inp).1).connections.map Prod.snd = []
    rw [hc]
    rfl
  · rw [update_snapshot_connections, hc]
    rfl
  · rw [update_snapshot_count, hc]
    rfl

/-- A monitor state that is currently tracking connA. -/
def s5tracking : MonitorState :=
  { history_length := 60
    bandwidth_history := []
    connections := [(get_connection_id connA,
      mkRecord [] [] (fun _ => none) 0 connA)]
    previous_io_counters := some ⟨1000, 2000⟩
    previous_time := some 0
    start_time := 0
    total_bytes_sent := 1000
    total_bytes_received := 2000
    process_bandwidth := []
    previous_process_counters := []
    previous_nettop_time := none }

/-- A tick on which connection enumeration failed with a permission
error. -/
def tickDenied : TickInput :=
  { io_counters := ⟨1500, 2500⟩
    io_time := 1
    nettop_result := none
    nettop_time := 1
    conn_result := none
    proc_name := fun _ => none
    now := 1 }

/-- Witness for C5_permission_error: a denied enumeration empties the
table even though a connection was tracked before the tick. -/
theorem C5_witness :
    get_connections ((update s5tracking tickDenied).1) = [] ∧
    ((update s5tracking tickDenied).2).connections = [] ∧
    ((update s5tracking tickDenied).2).stats.active_connections = 0 :=
  C5_permission_error s5tracking tickDenied rfl

/-- The rate table after one tick is whatever the nettop step produced
from the io-updated state. -/
theorem update_pbw (s : MonitorState) (inp : TickInput) :
    ((update s inp).1).process_bandwidth =
      (update_process_bandwidth
        (update_io_counters s inp.io_counters inp.io_time)
        inp.nettop_result inp.nettop_time).process_bandwidth := rfl

/-- Claim C6: when the per-process sampler fails, is unavailable or times
out (nettop_result = none), the per-process rate table and the previous
per-process sample are left completely unchanged by the tick - rates keep
their last successful values rather than resetting to zero - and the
snapshot's aggregate speeds are still computed from those retained rates;
the tick returns normally (the source's blanket except absorbs the
failure). -/
theorem C6_sampler_failure (s : MonitorState) (inp : TickInput)
    (h : inp.nettop_result = none) :
    ((update s inp).1).process_bandwidth = s.process_bandwidth ∧
    ((update s inp).1).previous_process_counters =
      s.previous_process_counters ∧
    ((update s inp).1).previous_nettop_time = s.previous_nettop_time ∧
    ((update s inp).2).stats.total_upload_speed =
      sumUpload s.process_bandwidth ∧
    ((update s inp).2).stats.total_download_speed =
      sumDownload s.process_bandwidth := by
  have e : update_process_bandwidth
      (update_io_counters s inp.io_counters inp.io_time)
      inp.nettop_result inp.nettop_time =
      update_io_counters s inp.io_counters inp.io_time := by
    rw [h]
    rfl
  have hpbw : ((update s inp).1).process_bandwidth = s.process_bandwidth := by
    rw [update_pbw, e, uio_process_bandwidth]
  refine ⟨hpbw, ?_, ?_, ?_, ?_⟩
  · show (update_process_bandwidth
        (update_io_counters s inp.io_counters inp.io_time)
        inp.nettop_result inp.nettop_time).previous_process_counters =
      s.previous_process_counters
    rw [e]
    exact (uio_prev_process s _ _).1
  · show (update_process_bandwidth
        (update_io_counters s inp.io_counters inp.io_time)
        inp.nettop_result inp.nettop_time).previous_nettop_time =
      s.previous_nettop_time
    rw [e]
    exact (uio_prev_process s _ _).2
  · show sumUpload (update_process_bandwidth
        (update_io_counters s inp.io_counters inp.io_time)
        inp.nettop_result inp.nettop_time).process_bandwidth =
      sumUpload s.process_bandwidth
    rw [e, uio_process_bandwidth]
  · show sumDownload (update_process_bandwidth
        (update_io_counters s inp.io_counters inp.io_time)
        inp.nettop_result inp.nettop_time).process_bandwidth =
      sumDownload s.process_bandwidth
    rw [e, uio_process_bandwidth]

/-- A monitor state holding rates from an earlier successful nettop run. -/
def s6rates : MonitorState :=
  { history_length := 60
    bandwidth_history := []
    connections := []
    previous_io_counters := some ⟨1000, 2000⟩
    previous_time := some 0
    start_time := 0
    total_bytes_sent := 1000
    total_bytes_received := 2000
    process_bandwidth := [(42, ⟨10, 20⟩)]
    previous_process_counters := [(42, ⟨100, 200⟩)]
    previous_nettop_time := some 0 }

/-- Witness for C6_sampler_failure: after a failed nettop run the rates of
process 42 survive untouched. -/
theorem C6_witness :
    ((update s6rates (simpleTick ⟨1500, 2500⟩ 1)).1).process_bandwidth =
      s6rates.process_bandwidth ∧
    ((update s6rates (simpleTick ⟨1500, 2500⟩ 1)).1).previous_process_counters =
      s6rates.previous_process_counters ∧
    ((update s6rates (simpleTick ⟨1500, 2500⟩ 1)).1).previous_nettop_time =
      s6rates.previous_nettop_time ∧
    ((update s6rates (simpleTick ⟨1500, 2500⟩ 1)).2).stats.total_upload_speed =
      sumUpload s6rates.process_bandwidth ∧
    ((update s6rates (simpleTick ⟨1500, 2500⟩ 1)).2).stats.total_download_speed =
      sumDownload s6rates.process_bandwidth :=
  C6_sampler_failure s6rates (simpleTick ⟨1500, 2500⟩ 1) rfl

/-- Claim C7: the aggregate speeds of the tick snapshot and of get_stats
are the sums of the per-process rate table's upload/download columns, not
the raw aggregate counter delta; the raw counters feed only the cumulative
total_bytes fields (and, via the history step, the BandwidthPoints). -/
theorem C7_stats_from_process_rates (s : MonitorState) (inp : TickInput)
    (now : ℚ) :
    ((update s inp).2).stats.total_upload_speed =
      sumUpload (((update s inp).1).process_bandwidth) ∧
    ((update s inp).2).stats.total_download_speed =
      sumDownload (((update s inp).1).process_bandwidth) ∧
    ((update s inp).2).stats.total_bytes_sent = inp.io_counters.bytes_sent ∧
    ((update s inp).2).stats.total_bytes_received = inp.io_counters.bytes_recv ∧
    (get_stats s now).total_upload_speed = sumUpload s.process_bandwidth ∧
    (get_stats s now).total_download_speed = sumDownload s.process_bandwidth := by
  refine ⟨rfl, rfl, ?_, ?_, rfl, rfl⟩
  · show (update_process_bandwidth
        (update_io_counters s inp.io_counters inp.io_time)
        inp.nettop_result inp.nettop_time).total_bytes_sent =
      inp.io_counters.bytes_sent
    rw [(upb_total_bytes _ _ _).1]
    exact (uio_total_bytes s _ _).1
  · show (update_process_bandwidth
        (update_io_counters s inp.io_counters inp.io_time)
        inp.nettop_result inp.nettop_time).total_bytes_received =
      inp.io_counters.bytes_recv
    rw [(upb_total_bytes _ _ _).2]
    exact (uio_total_bytes s _ _).2

end NetworkMonitor

namespace Broadcast

theorem publish_fst (subs : List Nat) (send_ok : Nat → Bool) :
    (publish subs send_ok).1 = subs := by
  unfold publish
  by_cases h : subs = []
  · rw [if_pos h]
  · rw [if_neg h]

theorem publish_snd (subs : List Nat) (send_ok : Nat → Bool) :
    (publish subs send_ok).2 = subs.filter send_ok := by
  unfold publish
  by_cases h : subs = []
  · rw [if_pos h, h]
    rfl
  · rw [if_neg h]
    dsimp only
    apply List.filter_congr
    intro a ha
    simp [List.mem_filter, ha]

/-- Claim C8: a publish pass attempts delivery to every member of the live
subscriber set; a subscriber whose delivery fails is removed from the set
as a side effect, so the next publish pass's attempt list (its first
component) no longer contains it and the health endpoint's subscriber
count equals the number of subscribers whose delivery succeeded. -/
theorem C8_failed_subscriber_removed (subs : List Nat) (send_ok : Nat → Bool)
    (c : Nat) (_hc : c ∈ subs) (hfail : send_ok c = false) :
    (publish subs send_ok).1 = subs ∧
    c ∉ (publish subs send_ok).2 ∧
    (publish (publish subs send_ok).2 send_ok).1 = (publish subs send_ok).2 ∧
    healthSubscriberCount (publish subs send_ok).2 =
      (subs.filter send_ok).length := by
  refine ⟨publish_fst subs send_ok, ?_, publish_fst _ send_ok, ?_⟩
  · rw [publish_snd]
    intro hmem
    rw [List.mem_filter, hfail] at hmem
    exact absurd hmem.2 (by simp)
  · rw [publish_snd]
    rfl

/-- Witness for C8_failed_subscriber_removed: of two subscribers, number 2
fails delivery, is no longer attempted, and the count drops to 1. -/
theorem C8_witness :
    (publish [1, 2] (fun c => c == 1)).1 = [1, 2] ∧
    2 ∉ (publish [1, 2] (fun c => c == 1)).2 ∧
    (publish (publish [1, 2] (fun c => c == 1)).2 (fun c => c == 1)).1 =
      (publish [1, 2] (fun c => c == 1)).2 ∧
    healthSubscriberCount (publish [1, 2] (fun c => c == 1)).2 =
      (([1, 2] : List Nat).filter (fun c => c == 1)).length :=
  C8_failed_subscriber_removed [1, 2] (fun c => c == 1) 2 (by decide)
    (by decide)

end Broadcast

namespace NetworkMonitor

theorem dGet_dSet_self {α β : Type} [DecidableEq α] (k : α) (v : β) :
    ∀ m : List (α × β), dGet (dSet m k v) k = some v := by
  intro m
  induction m with
  | nil => simp [dSet, dGet]
  | cons p rest ih =>
    obtain ⟨a, b⟩ := p
    rw [dSet]
    by_cases h : a = k
    · rw [if_pos h]
      simp [dGet]
    · rw [if_neg h, dGet, if_neg h]
      exact ih

theorem dGet_dSet_ne {α β : Type} [DecidableEq α] (k k2 : α) (v : β)
    (hne : k ≠ k2) :
    ∀ m : List (α × β), dGet (dSet m k v) k2 = dGet m k2 := by
  intro m
  induction m with
  | nil => simp [dSet, dGet, hne]
  | cons p rest ih =>
    obtain ⟨a, b⟩ := p
    rw [dSet]
    by_cases h : a = k
    · rw [if_pos h]
      subst h
      rw [dGet, dGet, if_neg hne, if_neg hne]
    · rw [if_neg h, dGet, dGet]
      by_cases h2 : a = k2
      · rw [if_pos h2, if_pos h2]
      · rw [if_neg h2, if_neg h2]
        exact ih

/-- Looking an identity up in the table the tick loop builds yields the
record mkRecord produced for an enumerated connection with that
identity. -/
theorem buildConns_dGet (old : List (String × ConnRecord))
    (pbw : List (Nat × ProcBW)) (pn : Nat → Option String) (now : ℚ)
    (cid : String) (r : ConnRecord) :
    ∀ (l : List ConnInfo) (acc : List (String × ConnRecord)),
      dGet (buildConns old pbw pn now l acc) cid = some r →
      dGet acc cid = some r ∨
        ∃ c ∈ l, c.raddr.isSome ∧ get_connection_id c = cid ∧
          r = mkRecord old pbw pn now c := by
  intro l
  induction l with
  | nil =>
    intro acc h
    rw [buildConns] at h
    exact Or.inl h
  | cons c rest ih =>
    intro acc h
    rw [buildConns] at h
    by_cases hnone : c.raddr.isNone = true
    · rw [if_pos hnone] at h
      rcases ih _ h with h2 | ⟨c2, hc2, h3, h4, h5⟩
      · exact Or.inl h2
      · exact Or.inr ⟨c2, List.mem_cons_of_mem _ hc2, h3, h4, h5⟩
    · rw [if_neg hnone] at h
      rcases ih _ h with h2 | ⟨c2, hc2, h3, h4, h5⟩
      · by_cases hid : get_connection_id c = cid
        · rw [← hid, dGet_dSet_self] at h2
          refine Or.inr ⟨c, List.mem_cons_self _ _, ?_, hid,
            (Option.some_inj.mp h2).symm⟩
          rcases hr : c.raddr with _ | a
          · exact absurd (by rw [hr]; rfl) hnone
          · rfl
        · rw [dGet_dSet_ne _ _ _ hid] at h2
          exact Or.inl h2
      · exact Or.inr ⟨c2, List.mem_cons_of_mem _ hc2, h3, h4, h5⟩

/-- Start-time and duration bookkeeping of the per-connection record: the
reported duration is always now minus the reported start time; a known
identity keeps its stored start time, an unknown one starts now with
duration zero. -/
theorem mkRecord_time (old : List (String × ConnRecord))
    (pbw : List (Nat × ProcBW)) (pn : Nat → Option String) (now : ℚ)
    (c : ConnInfo) :
    (mkRecord old pbw pn now c).duration =
      now - (mkRecord old pbw pn now c).start_time ∧
    (∀ e, dGet old (get_connection_id c) = some e →
      (mkRecord old pbw pn now c).start_time = e.start_time) ∧
    (dGet old (get_connection_id c) = none →
      (mkRecord old pbw pn now c).start_time = now ∧
      (mkRecord old pbw pn now c).duration = 0) := by
  unfold mkRecord
  rcases hg : dGet old (get_connection_id c) with _ | e <;> simp [hg]

/-- Any record stored under an identity after a tick: its duration is the
tick's now minus its start time; its start time is carried forward from
the pre-tick table when the identity was already present, and is the
tick's now (with duration zero) when it was not. -/
theorem update_conn_record (s : MonitorState) (i : TickInput) (cid : String)
    (r : ConnRecord) (h : dGet ((update s i).1).connections cid = some r) :
    r.duration = i.now - r.start_time ∧
    (∀ e, dGet s.connections cid = some e → r.start_time = e.start_time) ∧
    (dGet s.connections cid = none →
      r.start_time = i.now ∧ r.duration = 0) := by
  rw [update_connections_eq] at h
  rcases buildConns_dGet _ _ _ _ _ _ _ _ h with h2 | ⟨c, _, _, hid, hrec⟩
  · rw [dGet] at h2
    exact absurd h2 (by simp)
  · subst hrec
    obtain ⟨h1, h2, h3⟩ := mkRecord_time s.connections _ i.proc_name i.now c
    rw [hid] at h2 h3
    exact ⟨h1, h2, h3⟩

/-- Claim C9: an identity present in two consecutive ticks keeps its
original start time and reports duration = now - start_time, so with a
non-decreasing clock its duration never decreases from one tick to the
next; an identity newly observed on the first of the two ticks starts
with start_time = now and duration 0. -/
theorem C9_duration_monotone (s : MonitorState) (i1 i2 : TickInput)
    (cid : String) (r1 r2 : ConnRecord)
    (h1 : dGet ((update s i1).1).connections cid = some r1)
    (h2 : dGet ((update (update s i1).1 i2).1).connections cid = some r2)
    (hclock : i1.now ≤ i2.now) :
    r2.start_time = r1.start_time ∧
    r1.duration = i1.now - r1.start_time ∧
    r2.duration = i2.now - r1.start_time ∧
    r1.duration ≤ r2.duration ∧
    (dGet s.connections cid = none →
      r1.start_time = i1.now ∧ r1.duration = 0) := by
  obtain ⟨d1, _, n1⟩ := update_conn_record s i1 cid r1 h1
  obtain ⟨d2, e2, _⟩ := update_conn_record ((update s i1).1) i2 cid r2 h2
  have hst : r2.start_time = r1.start_time := e2 r1 h1
  rw [hst] at d2
  refine ⟨hst, d1, d2, ?_, n1⟩
  rw [d1, d2]
  exact sub_le_sub_right hclock _

/-- Second tick for the C9 witness: connA is enumerated again one second
later. -/
def tickConnA2 : TickInput :=
  { io_counters := ⟨1600, 2600⟩
    io_time := 2
    nettop_result := none
    nettop_time := 2
    conn_result := some [connA]
    proc_name := fun _ => some "curl"
    now := 2 }

end NetworkMonitor

namespace NetworkMonitor

/-- Witness for C9_duration_monotone: connA observed on two consecutive
ticks at now=1 and now=2 keeps its start time 1 and its duration grows
from 0 to 2-1. -/
theorem C9_witness :
    (mkRecord ((update (init 60 ⟨1000, 2000⟩ 0 0) tickConnA).1).connections []
        tickConnA2.proc_name 2 connA).start_time =
      (mkRecord [] [] tickConnA.proc_name 1 connA).start_time ∧
    (mkRecord [] [] tickConnA.proc_name 1 connA).duration =
      1 - (mkRecord [] [] tickConnA.proc_name 1 connA).start_time ∧
    (mkRecord ((update (init 60 ⟨1000, 2000⟩ 0 0) tickConnA).1).connections []
        tickConnA2.proc_name 2 connA).duration =
      2 - (mkRecord [] [] tickConnA.proc_name 1 connA).start_time ∧
    (mkRecord [] [] tickConnA.proc_name 1 connA).duration ≤
      (mkRecord ((update (init 60 ⟨1000, 2000⟩ 0 0) tickConnA).1).connections []
        tickConnA2.proc_name 2 connA).duration ∧
    (dGet (init 60 ⟨1000, 2000⟩ 0 0).connections (get_connection_id connA) =
        none →
      (mkRecord [] [] tickConnA.proc_name 1 connA).start_time = 1 ∧
      (mkRecord [] [] tickConnA.proc_name 1 connA).duration = 0) :=
  C9_duration_monotone (init 60 ⟨1000, 2000⟩ 0 0) tickConnA tickConnA2
    (get_connection_id connA)
    (mkRecord [] [] tickConnA.proc_name 1 connA)
    (mkRecord ((update (init 60 ⟨1000, 2000⟩ 0 0) tickConnA).1).connections []
      tickConnA2.proc_name 2 connA)
    (by norm_num [update_connections_eq, init, update_io_counters,
      update_process_bandwidth, buildConns, dSet, dGet, tickConnA, connA])
    (by norm_num [update, init, update_io_counters,
      update_process_bandwidth, buildConns, dSet, dGet, dequeAppend,
      tickConnA, tickConnA2, connA, mkRecord, get_connection_id,
      get_process_name, format_addr])
    (by norm_num [tickConnA, tickConnA2])

/-- Claim C10: a connection whose owning pid is unknown (None) is reported
with pid 0 and process_name "Unknown"; its upload/download speeds are
taken from the rate table's entry for pid 0 when one exists and are zero
otherwise, conflating it with a real pid-0 process in rate attribution,
while its identity string still embeds the original None pid as the text
"None". mkRecord is exactly the record update() stores in the table and
emits in the snapshot for one enumerated connection. -/
theorem C10_none_pid (old : List (String × ConnRecord))
    (pbw : List (Nat × ProcBW)) (pn : Nat → Option String) (now : ℚ)
    (c : ConnInfo) (h : c.pid = none) :
    (mkRecord old pbw pn now c).pid = 0 ∧
    (mkRecord old pbw pn now c).process_name = "Unknown" ∧
    (mkRecord old pbw pn now c).upload_speed =
      ((dGet pbw 0).getD ⟨0, 0⟩).upload ∧
    (mkRecord old pbw pn now c).download_speed =
      ((dGet pbw 0).getD ⟨0, 0⟩).download ∧
    (dGet pbw 0 = none →
      (mkRecord old pbw pn now c).upload_speed = 0 ∧
      (mkRecord old pbw pn now c).download_speed = 0) ∧
    (∃ pre, get_connection_id c = pre ++ "_None") := by
  unfold mkRecord get_process_name get_connection_id
  rw [h]
  dsimp only [Option.getD]
  refine ⟨?_, ?_, ?_, ?_, ?_, ?_⟩
  · rcases hg : dGet old _ with _ | e <;> simp [hg]
  · rcases hg : dGet old _ with _ | e <;> simp [hg]
  · rcases hg : dGet old _ with _ | e <;> simp [hg]
  · rcases hg : dGet old _ with _ | e <;> simp [hg]
  · intro hz
    rw [hz]
    constructor
    · rcases hg : dGet old _ with _ | e <;> simp [hg]
    · rcases hg : dGet old _ with _ | e <;> simp [hg]
  · refine ⟨c.type_name ++ "_" ++
      (match c.laddr with
        | some a => a.ip ++ ":" ++ toString a.port
        | none => "unknown") ++ "_" ++
      (match c.raddr with
        | some a => a.ip ++ ":" ++ toString a.port
        | none => "unknown"), ?_⟩
    rw [String.append_assoc]
    rfl

/-- A connection whose owning process could not be determined. -/
def connNoPid : ConnInfo :=
  { laddr := some ⟨"10.0.0.2", 60000⟩
    raddr := some ⟨"203.0.113.9", 8080⟩
    type_name := "SOCK_DGRAM"
    status := "NONE"
    pid := none }

/-- Witness for C10_none_pid: with a rate table lacking a pid-0 entry,
connNoPid is reported as pid 0 / "Unknown" with zero speeds, and its
identity ends in "_None". -/
theorem C10_witness :
    (mkRecord [] [(42, ⟨10, 20⟩)] (fun _ => some "curl") 3 connNoPid).pid
        = 0 ∧
    (mkRecord [] [(42, ⟨10, 20⟩)] (fun _ => some "curl") 3
        connNoPid).process_name = "Unknown" ∧
    (mkRecord [] [(42, ⟨10, 20⟩)] (fun _ => some "curl") 3
        connNoPid).upload_speed =
      ((dGet ([(42, ⟨10, 20⟩)] : List (Nat × ProcBW)) 0).getD ⟨0, 0⟩).upload ∧
    (mkRecord [] [(42, ⟨10, 20⟩)] (fun _ => some "curl") 3
        connNoPid).download_speed =
      ((dGet ([(42, ⟨10, 20⟩)] : List (Nat × ProcBW)) 0).getD ⟨0, 0⟩).download ∧
    (dGet ([(42, ⟨10, 20⟩)] : List (Nat × ProcBW)) 0 = none →
      (mkRecord [] [(42, ⟨10, 20⟩)] (fun _ => some "curl") 3
          connNoPid).upload_speed = 0 ∧
      (mkRecord [] [(42, ⟨10, 20⟩)] (fun _ => some "curl") 3
          connNoPid).download_speed = 0) ∧
    (∃ pre, get_connection_id connNoPid = pre ++ "_None") :=
  C10_none_pid [] [(42, ⟨10, 20⟩)] (fun _ => some "curl") 3 connNoPid rfl

end NetworkMonitor
